import Mathlib

/-!
Shallow embedding of the ARTH_Web team-registration and score-update
workflows (src/lib/firestore.ts, src/pages/api/update-score.ts, the
register API handler and the registration form submit handler).

The external store is modelled as a `List Team`: one element per persisted
team record, in the order the store's queries return them.  The random
source behind `Math.random()` is modelled as an explicit argument
`rand : Fin 5 → Fin 62` giving, for each of the five generated characters,
the index `Math.floor(Math.random() * chars.length)` that the code draws.
Timestamps (`Timestamp.now()` / `Date.now()`) are modelled as an explicit
`now : Nat` argument.  Fallible store operations are `Except String`:
`Except.error msg` models a thrown `Error` with message `msg`.
-/

/-- The `Team` interface of `src/lib/firestore.ts` (lines 22-33): one
persisted team record.  `id` is omitted: in every variant it duplicates a
field already present (the document key is the teamName or the uid). -/
structure Team where
  teamNumber : Nat
  teamName : String
  uid : String
  player1 : String
  player2 : String
  email : String
  phoneNumber : String
  score : Int
  createdAt : Nat
  deriving Repr, DecidableEq

/-- The 62-character alphabet of `generateUID`
(`'ABCDEFGHIJKLMNOPQRSTUVWXYZabcdefghijklmnopqrstuvwxyz0123456789'`). -/
def uidChars : List Char :=
  "ABCDEFGHIJKLMNOPQRSTUVWXYZabcdefghijklmnopqrstuvwxyz0123456789".data

theorem uidChars_length : uidChars.length = 62 := by decide

/-- `generateUID` (firestore.ts lines 39-46): five characters, each
`chars.charAt(Math.floor(Math.random() * chars.length))`; the random draws
are the explicit argument `rand`. -/
def generateUID (rand : Fin 5 → Fin 62) : String :=
  ⟨(List.finRange 5).map fun i => uidChars.get ((rand i).cast uidChars_length.symm)⟩

/-- `isTeamNameTaken` (firestore.ts lines 52-61 and 311-321): does any
record carry exactly this team name?  The document-ID variant
(`doc(db, 'teams', teamName)` exists) and the query variant
(`where('teamName', '==', teamName)`) both decide exactly this predicate,
since the document-ID variant stores each record under its teamName. -/
def isTeamNameTaken (store : List Team) (teamName : String) : Bool :=
  store.any fun t => t.teamName == teamName

/-- `isEmailTaken` (firestore.ts lines 66-76): query
`where('email', '==', email)` is non-empty. -/
def isEmailTaken (store : List Team) (email : String) : Bool :=
  store.any fun t => t.email == email

/-- `getNextTeamNumber` (firestore.ts lines 82-91): the number of existing
records plus one. -/
def getNextTeamNumber (store : List Team) : Nat :=
  store.length + 1

/-- One registration request: the five string inputs of `registerTeam`
together with the modelled random draws and clock reading consumed by the
call. -/
structure RegRequest where
  teamName : String
  player1 : String
  player2 : String
  email : String
  phoneNumber : String
  rand : Fin 5 → Fin 62
  now : Nat

/-- The record `registerTeam` builds and persists (firestore.ts lines
124-138): all five inputs, the generated uid, the allocated teamNumber,
`score: 0` and `createdAt: Timestamp.now()`. -/
def mkTeam (req : RegRequest) (uid : String) (teamNumber : Nat) : Team :=
  { teamNumber := teamNumber
    teamName := req.teamName
    uid := uid
    player1 := req.player1
    player2 := req.player2
    email := req.email
    phoneNumber := req.phoneNumber
    score := 0
    createdAt := req.now }

/-- `registerTeam` (firestore.ts lines 97-152): duplicate-name check, then
duplicate-email check, then generate a uid, allocate the next teamNumber,
and persist the new record.  On success returns the created record and the
new store contents; the thrown duplicate errors are the exact messages of
lines 112 and 116. -/
def registerTeam (store : List Team) (req : RegRequest) :
    Except String (Team × List Team) :=
  if isTeamNameTaken store req.teamName then
    Except.error ("Team name \"" ++ req.teamName ++
      "\" is already taken. Please choose a different name.")
  else if isEmailTaken store req.email then
    Except.error "This email address is already registered. Please use a different email."
  else
    let uid := generateUID req.rand
    let teamNumber := getNextTeamNumber store
    let t := mkTeam req uid teamNumber
    Except.ok (t, store ++ [t])

/-- The store contents after a `registerTeam` call: unchanged when the call
throws (every throw in lines 104-117 happens before the `setDoc` write). -/
def registerStore (store : List Team) (req : RegRequest) : List Team :=
  match registerTeam store req with
  | Except.ok (_, s) => s
  | Except.error _ => store

/-- `registerAll`: a sequence of `registerTeam` calls against an evolving
store, stopping at the first failure.  Models back-to-back registrations
with no other traffic interleaved. -/
def registerAll (store : List Team) : List RegRequest → Except String (List Team)
  | [] => Except.ok store
  | r :: rs =>
    match registerTeam store r with
    | Except.error e => Except.error e
    | Except.ok (_, s) => registerAll s rs

/-- Helper for `updateScore` (firestore.ts lines 170-173): apply the score
increment to the first record matching the uid (`querySnapshot.docs[0]`),
leaving every other record untouched. -/
def incrementFirst (uid : String) (inc : Int) : List Team → List Team
  | [] => []
  | t :: ts =>
    if t.uid == uid then { t with score := t.score + inc } :: ts
    else t :: incrementFirst uid inc ts

/-- `updateScore` (firestore.ts lines 158-180): query
`where('uid', '==', uid)`; throw `Team not found with the provided UID`
when empty, otherwise increment the score of the first matching document
by `scoreIncrement` (atomic `increment(scoreIncrement)`).  Returns the
resulting store contents. -/
def updateScore (store : List Team) (uid : String) (inc : Int) :
    Except String (List Team) :=
  if store.any (fun t => t.uid == uid) then
    Except.ok (incrementFirst uid inc store)
  else
    Except.error "Team not found with the provided UID"

/-- The JS sort comparator of `getAllTeams` (firestore.ts lines 775-780):
`b.score - a.score`, ties broken by `a.teamNumber - b.teamNumber`. -/
def teamCompare (a b : Team) : Int :=
  if a.score != b.score then b.score - a.score
  else (a.teamNumber : Int) - (b.teamNumber : Int)

/-- `a` may stay before `b` under the comparator: `teamCompare a b ≤ 0`. -/
def teamLe (a b : Team) : Bool := teamCompare a b ≤ 0

/-- `getAllTeams` (firestore.ts lines 754-787, Realtime Database variant):
keep only nodes with a truthy `teamName` (a non-empty string), then sort by
score descending, teamNumber ascending.  A stable sort by `teamLe` models
the JS engine's stable `Array.sort` under this comparator. -/
def getAllTeams (store : List Team) : List Team :=
  (store.filter fun t => t.teamName != "").mergeSort teamLe

/-! ### Fault-injected store (error fallbacks of the helper functions)

Each helper in firestore.ts wraps its store calls in try/catch with a
deliberate fallback: `isTeamNameTaken`/`isEmailTaken` return `true` on a
store error (lines 57-60, 72-75), `getNextTeamNumber` returns `1` (lines
87-90), and a failed write rethrows the store's own `Error` out of
`registerTeam` (lines 145-151).  `StoreFaults` says which of the store
calls inside one `registerTeam` invocation fail. -/

/-- Which store operations fail during one registration call.  `write`
carries the message of the `Error` the failing write throws. -/
structure StoreFaults where
  nameCheck : Bool
  emailCheck : Bool
  countQuery : Bool
  write : Option String

/-- No store operation fails. -/
def noFaults : StoreFaults :=
  { nameCheck := false, emailCheck := false, countQuery := false, write := none }

/-- `isTeamNameTaken` with its catch branch: on a store error it returns
`true` (firestore.ts lines 57-60, comment: prevent duplicates). -/
def isTeamNameTakenF (fail : Bool) (store : List Team) (teamName : String) : Bool :=
  if fail then true else isTeamNameTaken store teamName

/-- `isEmailTaken` with its catch branch: `true` on a store error. -/
def isEmailTakenF (fail : Bool) (store : List Team) (email : String) : Bool :=
  if fail then true else isEmailTaken store email

/-- `getNextTeamNumber` with its catch branch: `1` on a store error
(firestore.ts lines 87-90). -/
def getNextTeamNumberF (fail : Bool) (store : List Team) : Nat :=
  if fail then 1 else getNextTeamNumber store

/-- `registerTeam` under injected store faults.  A failing write makes
`setDoc` throw; the catch of lines 145-151 rethrows that `Error`
unchanged (it is an `instanceof Error`), so the caller sees its message. -/
def registerTeamF (f : StoreFaults) (store : List Team) (req : RegRequest) :
    Except String (Team × List Team) :=
  if isTeamNameTakenF f.nameCheck store req.teamName then
    Except.error ("Team name \"" ++ req.teamName ++
      "\" is already taken. Please choose a different name.")
  else if isEmailTakenF f.emailCheck store req.email then
    Except.error "This email address is already registered. Please use a different email."
  else
    let uid := generateUID req.rand
    let teamNumber := getNextTeamNumberF f.countQuery store
    let t := mkTeam req uid teamNumber
    match f.write with
    | some msg => Except.error msg
    | none => Except.ok (t, store ++ [t])

theorem registerTeamF_noFaults (store : List Team) (req : RegRequest) :
    registerTeamF noFaults store req = registerTeam store req := by
  simp [registerTeamF, registerTeam, isTeamNameTakenF, isEmailTakenF,
    getNextTeamNumberF, noFaults]

/-! ### HTTP handler embeddings -/

/-- JS `String.prototype.trim()`: strip leading and trailing whitespace.
(Defined over the character list so that it reduces definitionally;
`Char.isWhitespace` models the JS WhiteSpace/LineTerminator classes.) -/
def jsTrim (s : String) : String :=
  ⟨((s.data.dropWhile Char.isWhitespace).reverse.dropWhile Char.isWhitespace).reverse⟩

/-- Split a character list at every occurrence of the separator character,
like JS `String.prototype.split` with a single-character separator. -/
def splitOnChar (c : Char) : List Char → List (List Char)
  | [] => [[]]
  | x :: xs =>
    if x == c then [] :: splitOnChar c xs
    else
      match splitOnChar c xs with
      | [] => [[x]]
      | g :: gs => (x :: g) :: gs

/-- Does `needle` occur at the start of `hay`? -/
def startsWithL : List Char → List Char → Bool
  | [], _ => true
  | _ :: _, [] => false
  | a :: as, b :: bs => a == b && startsWithL as bs

/-- Does `needle` occur anywhere in `hay`?  Models JS
`String.prototype.includes`. -/
def containsL (needle : List Char) : List Char → Bool
  | [] => needle.isEmpty
  | b :: rest => startsWithL needle (b :: rest) || containsL needle rest

/-- A character accepted by `[^\s@]` in the email regex of the handlers:
neither whitespace nor an at sign. -/
def emailOkChar (c : Char) : Bool := !c.isWhitespace && c != '@'

/-- Decides the email regex of the handlers,
`/^[^\s@]+@[^\s@]+\.[^\s@]+$/`.  A string matches iff it splits as
`A ++ "@" ++ B ++ "." ++ C` with `A`, `B`, `C` non-empty strings of
`emailOkChar` characters.  Since `A`, `B`, `C` exclude the at sign, the
string has exactly one at sign; since the dot class `[^\s@]` itself admits
a dot, the part after the at sign matches `[^\s@]+\.[^\s@]+` iff all its
characters are `emailOkChar` and it has a dot neither in first nor in last
position. -/
def emailValid (s : String) : Bool :=
  match splitOnChar '@' s.data with
  | [a, rest] =>
    !a.isEmpty && a.all emailOkChar &&
    rest.all emailOkChar &&
    ((rest.drop 1).dropLast.contains '.')
  | _ => false

/-- A character of the phone regex body class `[\d\s\-\(\)]`. -/
def phoneOkChar (c : Char) : Bool :=
  c.isDigit || c.isWhitespace || c == '-' || c == '(' || c == ')'

/-- Decides the phone regex of the handlers,
`/^[\+]?[\d\s\-\(\)]{10,15}$/`: an optional leading plus, then 10 to 15
characters from the body class (which excludes the plus). -/
def phoneValid (s : String) : Bool :=
  let body := match s.data with
    | '+' :: rest => rest
    | l => l
  decide (10 ≤ body.length) && decide (body.length ≤ 15) && body.all phoneOkChar

/-- One JSON field of a request body: absent, or present as a string.
(Non-string JSON values are not modelled; every claim under scrutiny
concerns string-valued fields, for which the handlers' `typeof` checks
pass.) -/
def falsyOpt : Option String → Bool
  | none => true
  | some s => s == ""

/-- Request body of POST /api/register. -/
structure RegisterBody where
  teamName : Option String
  player1 : Option String
  player2 : Option String
  email : Option String
  phoneNumber : Option String

/-- An HTTP response as the handlers build it: status code, `success`
flag, and the optional `message`, `error` and team payload fields. -/
structure ApiResponse where
  status : Nat
  success : Bool
  message : Option String := none
  error : Option String := none
  team : Option Team := none
  deriving Repr, DecidableEq

/-- The POST /api/register handler: method check, missing-field check
(JS falsiness: absent or empty string), email regex on the trimmed email,
phone regex on the trimmed phone number, then `registerTeam` on the
trimmed fields; 201 with the team on success, 500 with the thrown message
on any `registerTeam` failure.  Returns the response and the store
contents afterwards. -/
def registerHandler (store : List Team) (method : String) (body : RegisterBody)
    (rand : Fin 5 → Fin 62) (now : Nat) : ApiResponse × List Team :=
  if method != "POST" then
    ({ status := 405, success := false,
       error := some "Method not allowed. Use POST." }, store)
  else if falsyOpt body.teamName || falsyOpt body.player1 || falsyOpt body.player2 ||
      falsyOpt body.email || falsyOpt body.phoneNumber then
    ({ status := 400, success := false,
       error := some "Missing required fields. Please provide teamName, player1, player2, email, and phoneNumber." }, store)
  else
    let teamName := (body.teamName.getD "")
    let player1 := (body.player1.getD "")
    let player2 := (body.player2.getD "")
    let email := (body.email.getD "")
    let phoneNumber := (body.phoneNumber.getD "")
    if !emailValid (jsTrim email) then
      ({ status := 400, success := false, error := some "Invalid email format." }, store)
    else if !phoneValid (jsTrim phoneNumber) then
      ({ status := 400, success := false, error := some "Invalid phone number format." }, store)
    else
      match registerTeam store
        { teamName := jsTrim teamName, player1 := jsTrim player1, player2 := jsTrim player2,
          email := jsTrim email, phoneNumber := jsTrim phoneNumber,
          rand := rand, now := now } with
      | Except.ok (t, s) =>
        ({ status := 201, success := true, team := some t }, s)
      | Except.error e =>
        ({ status := 500, success := false, error := some e }, store)

/-- Request body of POST /api/update-score (`scoreIncrement` modelled as
an integer; the claims under scrutiny concern integer increments). -/
structure UpdateScoreBody where
  uid : Option String
  scoreIncrement : Option Int

/-- The POST /api/update-score handler: method check, missing-uid check
(JS falsiness), missing-increment check, range check
`scoreIncrement < -1000000 || scoreIncrement > 1000000`, then
`updateScore` on the trimmed uid; 200 on success, 404 when the thrown
message contains `Team not found`, 500 with the message otherwise. -/
def updateScoreHandler (store : List Team) (method : String)
    (body : UpdateScoreBody) : ApiResponse × List Team :=
  if method != "POST" then
    ({ status := 405, success := false,
       error := some "Method not allowed. Use POST." }, store)
  else if falsyOpt body.uid then
    ({ status := 400, success := false,
       error := some "Missing required field: uid" }, store)
  else if body.scoreIncrement.isNone then
    ({ status := 400, success := false,
       error := some "Missing required field: scoreIncrement" }, store)
  else
    let uid := body.uid.getD ""
    let inc := body.scoreIncrement.getD 0
    if inc < -1000000 || inc > 1000000 then
      ({ status := 400, success := false,
         error := some "Score increment must be between -1,000,000 and 1,000,000" }, store)
    else
      match updateScore store (jsTrim uid) inc with
      | Except.ok s =>
        ({ status := 200, success := true,
           message := some "Score updated successfully." }, s)
      | Except.error e =>
        if containsL "Team not found".data e.data then
          ({ status := 404, success := false,
             error := some "Team not found with the provided UID" }, store)
        else
          ({ status := 500, success := false, error := some e }, store)

/-- The validation sequence of the registration form's `handleSubmit`
(src/pages/index.tsx): all five fields non-empty after trimming, email
regex on the raw email field, phone regex on the trimmed phone number,
then team name length in [2, 30] after trimming.  Returns the thrown
validation message, if any. -/
def handleSubmitValidate (teamName player1 player2 email phoneNumber : String) :
    Except String Unit :=
  if jsTrim teamName == "" || jsTrim player1 == "" || jsTrim player2 == "" ||
      jsTrim email == "" || jsTrim phoneNumber == "" then
    Except.error "Please fill in all fields"
  else if !emailValid email then
    Except.error "Please enter a valid email address"
  else if !phoneValid (jsTrim phoneNumber) then
    Except.error "Please enter a valid phone number"
  else if (jsTrim teamName).length < 2 || (jsTrim teamName).length > 30 then
    Except.error "Team name must be between 2 and 30 characters"
  else
    Except.ok ()

/-- The registration form submit handler: run the validation sequence,
then call `registerTeam` with the trimmed fields.  Returns the registered
team (or the error message shown to the user) and the store contents
afterwards. -/
def handleSubmit (store : List Team)
    (teamName player1 player2 email phoneNumber : String)
    (rand : Fin 5 → Fin 62) (now : Nat) : Except String Team × List Team :=
  match handleSubmitValidate teamName player1 player2 email phoneNumber with
  | Except.error e => (Except.error e, store)
  | Except.ok _ =>
    match registerTeam store
      { teamName := jsTrim teamName, player1 := jsTrim player1, player2 := jsTrim player2,
        email := jsTrim email, phoneNumber := jsTrim phoneNumber,
        rand := rand, now := now } with
    | Except.ok (t, s) => (Except.ok t, s)
    | Except.error e => (Except.error e, store)

/-! ### Helper lemmas -/

theorem incrementFirst_append (pre post : List Team) (t : Team) (uid : String)
    (inc : Int) (hpre : ∀ u ∈ pre, u.uid ≠ uid) (ht : t.uid = uid) :
    incrementFirst uid inc (pre ++ t :: post)
      = pre ++ { t with score := t.score + inc } :: post := by
  induction pre with
  | nil => simp [incrementFirst, ht]
  | cons u pre ih =>
    have hu : (u.uid == uid) = false := by
      simpa using hpre u (by simp)
    simp only [List.cons_append, incrementFirst, hu]
    simp only [Bool.false_eq_true, if_false, List.cons.injEq, true_and]
    exact ih fun v hv => hpre v (by simp [hv])

theorem updateScore_found (pre post : List Team) (t : Team) (uid : String)
    (inc : Int) (hpre : ∀ u ∈ pre, u.uid ≠ uid) (ht : t.uid = uid) :
    updateScore (pre ++ t :: post) uid inc
      = Except.ok (pre ++ { t with score := t.score + inc } :: post) := by
  have hany : ((pre ++ t :: post).any fun u => u.uid == uid) = true := by
    simp only [List.any_append, List.any_cons, ht, beq_self_eq_true]
    simp
  simp only [updateScore, hany, if_true]
  rw [incrementFirst_append pre post t uid inc hpre ht]

/-- C1: for every team record present in the store (here: the first record
matching the identifier, i.e. the one the query returns first) and every
increment, `updateScore` applies exact integer addition to the score field
with no clamping, so the result may be negative; and
`updateScore(identifier, +100)` followed by `updateScore(identifier, -30)`
leaves that score at +70 relative to its prior value. -/
theorem updateScore_exact_add (pre post : List Team) (t : Team) (uid : String)
    (inc : Int) (hpre : ∀ u ∈ pre, u.uid ≠ uid) (ht : t.uid = uid) :
    updateScore (pre ++ t :: post) uid inc
      = Except.ok (pre ++ { t with score := t.score + inc } :: post) ∧
    (updateScore (pre ++ t :: post) uid 100).bind
        (fun s => updateScore s uid (-30))
      = Except.ok (pre ++ { t with score := t.score + 70 } :: post) := by
  refine ⟨updateScore_found pre post t uid inc hpre ht, ?_⟩
  rw [updateScore_found pre post t uid 100 hpre ht]
  show updateScore (pre ++ { t with score := t.score + 100 } :: post) uid (-30) = _
  rw [updateScore_found pre post { t with score := t.score + 100 } uid (-30) hpre ht]
  have : t.score + 100 + (-30) = t.score + 70 := by omega
  simp [this]

def teamW : Team :=
  { teamNumber := 1, teamName := "Wolves", uid := "qK234", player1 := "A",
    player2 := "B", email := "w@x.yz", phoneNumber := "1234567890",
    score := 3, createdAt := 0 }

/-- Witness for C1 at a concrete store: an increment of `-5` drives the
score of the only record to `-2` (negative, unclamped), and the
`+100` / `-30` pair leaves it at `3 + 70 = 73`. -/
theorem updateScore_exact_add_w :
    updateScore [teamW] "qK234" (-5)
      = Except.ok [{ teamW with score := -2 }] ∧
    (updateScore [teamW] "qK234" 100).bind
        (fun s => updateScore s "qK234" (-30))
      = Except.ok [{ teamW with score := 73 }] := by
  have h := updateScore_exact_add [] [] teamW "qK234" (-5) (by simp) rfl
  exact ⟨h.1, h.2⟩

/-- C10: when several records carry the same uid, `updateScore` increments
exactly the first match the query returns and leaves every other record —
the collision partners in `post` included — unchanged: `pre` and `post`
reappear verbatim in the resulting store. -/
theorem updateScore_collision_first_only (pre post : List Team) (t t2 : Team)
    (uid : String) (inc : Int) (hpre : ∀ u ∈ pre, u.uid ≠ uid)
    (ht : t.uid = uid) (ht2 : t2 ∈ post) (ht2uid : t2.uid = uid) :
    updateScore (pre ++ t :: post) uid inc
      = Except.ok (pre ++ { t with score := t.score + inc } :: post) :=
  updateScore_found pre post t uid inc hpre ht

def teamW2 : Team :=
  { teamNumber := 2, teamName := "Wolves II", uid := "qK234", player1 := "C",
    player2 := "D", email := "w2@x.yz", phoneNumber := "1234567890",
    score := 8, createdAt := 0 }

/-- Witness for C10: two records share uid `qK234`; the increment lands on
the first one only and the collision partner keeps score `8`. -/
theorem updateScore_collision_first_only_w :
    updateScore [teamW, teamW2] "qK234" 10
      = Except.ok [{ teamW with score := 13 }, teamW2] := by
  have h := updateScore_collision_first_only [] [teamW2] teamW teamW2 "qK234" 10
    (by simp) rfl (by simp) rfl
  exact h

/-- C2: every registration whose teamName and email are not already in
the store succeeds, persisting and returning a record with score 0 whose
identifier is the 5-character uid generated from the 62-character
alphanumeric alphabet: its length is 5 and each character is drawn from
`uidChars`, which has exactly 62 characters. -/
theorem registerTeam_fresh (store : List Team) (req : RegRequest)
    (hn : isTeamNameTaken store req.teamName = false)
    (he : isEmailTaken store req.email = false) :
    registerTeam store req
      = Except.ok (mkTeam req (generateUID req.rand) (store.length + 1),
          store ++ [mkTeam req (generateUID req.rand) (store.length + 1)]) ∧
    (mkTeam req (generateUID req.rand) (store.length + 1)).score = 0 ∧
    (generateUID req.rand).length = 5 ∧
    (∀ c ∈ (generateUID req.rand).data, c ∈ uidChars) ∧
    uidChars.length = 62 := by
  refine ⟨?_, rfl, ?_, ?_, uidChars_length⟩
  · simp [registerTeam, hn, he, getNextTeamNumber]
  · simp [generateUID, String.length]
  · intro c hc
    simp only [generateUID, String.data] at hc
    rcases List.mem_map.mp hc with ⟨i, _, rfl⟩
    exact List.get_mem _ _ _

def rand0 : Fin 5 → Fin 62 := fun _ => 0

def reqAlpha : RegRequest :=
  { teamName := "Alpha", player1 := "P1", player2 := "P2", email := "a@b.com",
    phoneNumber := "1234567890", rand := rand0, now := 0 }

/-- Witness for C2: registering `Alpha` against the empty store yields a
record with score 0 and the 5-character uid `AAAAA`. -/
theorem registerTeam_fresh_w :
    registerTeam [] reqAlpha
      = Except.ok (mkTeam reqAlpha "AAAAA" 1, [mkTeam reqAlpha "AAAAA" 1]) ∧
    (mkTeam reqAlpha "AAAAA" 1).score = 0 ∧
    ("AAAAA" : String).length = 5 := by
  have h := registerTeam_fresh [] reqAlpha rfl rfl
  exact ⟨h.1, h.2.1, h.2.2.1⟩

/-- C3: when the store already holds a record with the requested teamName
(compared case-sensitively by string equality), registration fails with
the duplicate-name error naming the conflicting value, and the store is
left unchanged — no second record is created. -/
theorem registerTeam_duplicate_name (store : List Team) (req : RegRequest)
    (h : isTeamNameTaken store req.teamName = true) :
    registerTeam store req
      = Except.error ("Team name \"" ++ req.teamName ++
          "\" is already taken. Please choose a different name.") ∧
    registerStore store req = store := by
  have h1 : registerTeam store req
      = Except.error ("Team name \"" ++ req.teamName ++
          "\" is already taken. Please choose a different name.") := by
    simp [registerTeam, h]
  exact ⟨h1, by simp [registerStore, h1]⟩

def storeAlpha : List Team := [mkTeam reqAlpha "AAAAA" 1]

/-- Witness for C3: with `Alpha` already registered, a second `Alpha`
registration fails with the duplicate-name message and leaves the
single-record store as it was. -/
theorem registerTeam_duplicate_name_w :
    registerTeam storeAlpha reqAlpha
      = Except.error "Team name \"Alpha\" is already taken. Please choose a different name." ∧
    registerStore storeAlpha reqAlpha = storeAlpha := by
  have h := registerTeam_duplicate_name storeAlpha reqAlpha (by decide)
  exact ⟨h.1, h.2⟩

/-- The ordering the scoreboard claims: score strictly higher first, equal
scores tie-broken by teamNumber ascending. -/
def scoreboardRel (a b : Team) : Prop :=
  b.score < a.score ∨ (a.score = b.score ∧ a.teamNumber ≤ b.teamNumber)

theorem teamLe_iff (a b : Team) :
    teamLe a b = true ↔ scoreboardRel a b := by
  unfold teamLe teamCompare scoreboardRel
  by_cases h : a.score = b.score <;> simp [h, bne] <;> omega

theorem teamLe_trans (a b c : Team) :
    teamLe a b → teamLe b c → teamLe a c := by
  intro hab hbc
  rw [teamLe_iff] at *
  unfold scoreboardRel at *
  rcases hab with h1 | ⟨h1, h2⟩ <;> rcases hbc with h3 | ⟨h3, h4⟩ <;> omega

theorem teamLe_total (a b : Team) : teamLe a b || teamLe b a := by
  rw [Bool.or_eq_true, teamLe_iff, teamLe_iff]
  unfold scoreboardRel
  omega

def exTeam1 : Team :=
  { teamNumber := 1, teamName := "Bravo", uid := "U1", player1 := "",
    player2 := "", email := "b@x.yz", phoneNumber := "", score := 50, createdAt := 0 }

def exTeam2 : Team :=
  { teamNumber := 2, teamName := "Alpha", uid := "U2", player1 := "",
    player2 := "", email := "a@x.yz", phoneNumber := "", score := 50, createdAt := 0 }

def exTeam3 : Team :=
  { teamNumber := 3, teamName := "Charlie", uid := "U3", player1 := "",
    player2 := "", email := "c@x.yz", phoneNumber := "", score := 10, createdAt := 0 }

unseal List.merge List.mergeSort in
/-- C4: for every collection of team records (every record carrying a
non-empty teamName, as true team records do), the scoreboard list is a
permutation of the collection — exactly those records — and is pairwise
ordered by score descending with ties broken by teamNumber ascending; on
records with scores [50, 50, 10] and teamNumbers [2, 1, 3] the output
order is teamNumber 1 (score 50), teamNumber 2 (score 50), teamNumber 3
(score 10). -/
theorem getAllTeams_sorted :
    (∀ store : List Team, (∀ t ∈ store, t.teamName ≠ "") →
      (getAllTeams store).Perm store ∧
      (getAllTeams store).Pairwise scoreboardRel) ∧
    getAllTeams [exTeam2, exTeam1, exTeam3] = [exTeam1, exTeam2, exTeam3] := by
  constructor
  · intro store h
    have hf : (store.filter fun t => t.teamName != "") = store := by
      rw [List.filter_eq_self]
      intro a ha
      simpa using h a ha
    constructor
    · unfold getAllTeams
      rw [hf]
      exact List.mergeSort_perm store teamLe
    · unfold getAllTeams
      have hp := List.sorted_mergeSort teamLe_trans teamLe_total
        (store.filter fun t => t.teamName != "")
      exact hp.imp fun hab => (teamLe_iff _ _).mp hab
  · decide

/-- Witness for C4: the general part applied to a concrete two-record
store. -/
theorem getAllTeams_sorted_w :
    (getAllTeams [teamW, teamW2]).Perm [teamW, teamW2] ∧
    (getAllTeams [teamW, teamW2]).Pairwise scoreboardRel :=
  getAllTeams_sorted.1 [teamW, teamW2] (by decide)

theorem registerAll_aux (reqs : List RegRequest) :
    ∀ (store s : List Team), registerAll store reqs = Except.ok s →
    (∀ k (hk : k < store.length), (store.get ⟨k, hk⟩).teamNumber = k + 1) →
    s.length = store.length + reqs.length ∧
    ∀ k (hk : k < s.length), (s.get ⟨k, hk⟩).teamNumber = k + 1 := by
  induction reqs with
  | nil =>
    intro store s h hinv
    simp only [registerAll, Except.ok.injEq] at h
    subst h
    simpa using hinv
  | cons r rs ih =>
    intro store s h hinv
    simp only [registerAll] at h
    cases hreg : registerTeam store r with
    | error e => rw [hreg] at h; simp at h
    | ok p =>
      rw [hreg] at h
      unfold registerTeam at hreg
      split at hreg
      · simp at hreg
      · split at hreg
        · simp at hreg
        · simp only [Except.ok.injEq] at hreg
          subst hreg
          have := ih (store ++ [mkTeam r (generateUID r.rand) (getNextTeamNumber store)]) s h ?_
          · constructor
            · rw [this.1]
              simp
              omega
            · exact this.2
          · intro k hk
            simp only [List.length_append, List.length_cons, List.length_nil] at hk
            rw [List.get_eq_getElem]
            by_cases hlt : k < store.length
            · rw [List.getElem_append_left hlt]
              have := hinv k hlt
              rw [List.get_eq_getElem] at this
              exact this
            · have hk' : k = store.length := by omega
              subst hk'
              rw [List.getElem_concat_length _ _ _ rfl]
              simp [mkTeam, getNextTeamNumber]

/-- C5: starting from the empty store, for every sequence of registrations
that all succeed (no deletions or failures interleaved), the Nth
registered team — the record at position N of the resulting store,
counting from 1 — has teamNumber exactly N, because each registration
allocates (count of existing records) + 1. -/
theorem registerAll_teamNumbers (reqs : List RegRequest) (s : List Team)
    (h : registerAll [] reqs = Except.ok s) :
    s.length = reqs.length ∧
    ∀ k (hk : k < s.length), (s.get ⟨k, hk⟩).teamNumber = k + 1 := by
  have := registerAll_aux reqs [] s h (by intro k hk; simp at hk)
  simpa using this

def reqBravo : RegRequest :=
  { teamName := "Bravo", player1 := "P3", player2 := "P4", email := "c@d.com",
    phoneNumber := "1234567890", rand := rand0, now := 0 }

/-- Witness for C5: registering `Alpha` then `Bravo` from the empty store
gives the first record teamNumber 1 and the second teamNumber 2. -/
theorem registerAll_teamNumbers_w :
    ([mkTeam reqAlpha "AAAAA" 1, mkTeam reqBravo "AAAAA" 2].get
        ⟨0, by decide⟩).teamNumber = 1 ∧
    ([mkTeam reqAlpha "AAAAA" 1, mkTeam reqBravo "AAAAA" 2].get
        ⟨1, by decide⟩).teamNumber = 2 := by
  have h := registerAll_teamNumbers [reqAlpha, reqBravo]
    [mkTeam reqAlpha "AAAAA" 1, mkTeam reqBravo "AAAAA" 2] rfl
  exact ⟨h.2 0 (by decide), h.2 1 (by decide)⟩

def faultsCount : StoreFaults :=
  { nameCheck := false, emailCheck := false, countQuery := true, write := none }

/-- Counterexample for C6: when the store is unavailable during the
team-count query (`getNextTeamNumber` catches the error and returns 1),
a registration with unique name and email does NOT fail — it succeeds and
creates a record (with teamNumber 1), contradicting the claim that any
store failure fails the whole operation and creates no record. -/
theorem registerTeamF_count_fault_cex :
    registerTeamF faultsCount [] reqAlpha
      = Except.ok (mkTeam reqAlpha "AAAAA" 1, [mkTeam reqAlpha "AAAAA" 1]) ∧
    [mkTeam reqAlpha "AAAAA" 1] ≠ ([] : List Team) := by
  exact ⟨rfl, by decide⟩

/-- C6 (amended): a store failure during the persisting write fails the
whole operation with the store's own error and creates no record; a store
failure during the name (resp. email) uniqueness query also fails the
operation with no record created, but is surfaced as the duplicate-name
(resp. duplicate-email) user-facing error, because those helpers return
`true` on error; a store failure during the team-count query does not fail
the operation — the record is created with teamNumber 1. -/
theorem registerTeamF_store_failures (store : List Team) (req : RegRequest)
    (msg : String) :
    (isTeamNameTaken store req.teamName = false →
      isEmailTaken store req.email = false →
      registerTeamF { noFaults with write := some msg } store req
        = Except.error msg) ∧
    (registerTeamF { noFaults with nameCheck := true } store req
      = Except.error ("Team name \"" ++ req.teamName ++
          "\" is already taken. Please choose a different name.")) ∧
    (isTeamNameTaken store req.teamName = false →
      registerTeamF { noFaults with emailCheck := true } store req
        = Except.error "This email address is already registered. Please use a different email.") ∧
    (isTeamNameTaken store req.teamName = false →
      isEmailTaken store req.email = false →
      registerTeamF { noFaults with countQuery := true } store req
        = Except.ok (mkTeam req (generateUID req.rand) 1,
            store ++ [mkTeam req (generateUID req.rand) 1])) := by
  refine ⟨fun hn he => ?_, ?_, fun hn => ?_, fun hn he => ?_⟩ <;>
    simp [registerTeamF, isTeamNameTakenF, isEmailTakenF, getNextTeamNumberF,
      noFaults, *]

/-- Witness for C6 (amended): a failing write against the empty store
surfaces the store error and registers nothing. -/
theorem registerTeamF_store_failures_w :
    registerTeamF { noFaults with write := some "store unavailable" } [] reqAlpha
      = Except.error "store unavailable" :=
  (registerTeamF_store_failures [] reqAlpha "store unavailable").1 rfl rfl

def bodyDupAlpha : RegisterBody :=
  { teamName := some "Alpha", player1 := some "P1", player2 := some "P2",
    email := some "c@d.com", phoneNumber := some "1234567890" }

/-- Counterexample for C7: a POST /api/register request whose teamName
duplicates the existing `Alpha` record gets HTTP 500 — not the claimed
400 — because the handler's catch block returns 500 for every error
thrown by `registerTeam`, duplicates included. -/
theorem registerHandler_duplicate_500_cex :
    (registerHandler storeAlpha "POST" bodyDupAlpha rand0 0).1.status = 500 ∧
    (registerHandler storeAlpha "POST" bodyDupAlpha rand0 0).1.status ≠ 400 ∧
    (registerHandler storeAlpha "POST" bodyDupAlpha rand0 0).1.success = false := by
  refine ⟨rfl, by decide, rfl⟩

/-- C7 (amended): a POST /api/register request whose teamName or email
duplicates an existing record responds with HTTP status 500 — not 400 —
and a body of shape success=false with an error string (the duplicate
message thrown by `registerTeam`), leaving the store unchanged; the 400
status is reserved for the missing-field and format validation branches. -/
theorem registerHandler_duplicate_500 (store : List Team) (body : RegisterBody)
    (rand : Fin 5 → Fin 62) (now : Nat)
    (h1 : falsyOpt body.teamName = false) (h2 : falsyOpt body.player1 = false)
    (h3 : falsyOpt body.player2 = false) (h4 : falsyOpt body.email = false)
    (h5 : falsyOpt body.phoneNumber = false)
    (he : emailValid (jsTrim (body.email.getD "")) = true)
    (hp : phoneValid (jsTrim (body.phoneNumber.getD "")) = true) :
    (isTeamNameTaken store (jsTrim (body.teamName.getD "")) = true →
      registerHandler store "POST" body rand now
        = ({ status := 500, success := false,
             error := some ("Team name \"" ++ jsTrim (body.teamName.getD "") ++
               "\" is already taken. Please choose a different name.") }, store)) ∧
    (isTeamNameTaken store (jsTrim (body.teamName.getD "")) = false →
      isEmailTaken store (jsTrim (body.email.getD "")) = true →
      registerHandler store "POST" body rand now
        = ({ status := 500, success := false,
             error := some "This email address is already registered. Please use a different email." },
           store)) := by
  constructor
  · intro hname
    simp [registerHandler, registerTeam, h1, h2, h3, h4, h5, he, hp, hname]
  · intro hname hemail
    simp [registerHandler, registerTeam, h1, h2, h3, h4, h5, he, hp, hname, hemail]

/-- Witness for C7 (amended): the concrete duplicate-`Alpha` request gets
the 500 response with the duplicate-name message, and the store is
unchanged. -/
theorem registerHandler_duplicate_500_w :
    registerHandler storeAlpha "POST" bodyDupAlpha rand0 0
      = ({ status := 500, success := false,
           error := some "Team name \"Alpha\" is already taken. Please choose a different name." },
         storeAlpha) :=
  (registerHandler_duplicate_500 storeAlpha bodyDupAlpha rand0 0 rfl rfl rfl rfl rfl
    (by decide) (by decide)).1 (by decide)

def bodyShortName : RegisterBody :=
  { teamName := some "X", player1 := some "P1", player2 := some "P2",
    email := some "a@b.com", phoneNumber := some "1234567890" }

/-- Counterexample for C8: a POST /api/register request with the
1-character teamName `X` (length < 2) is NOT rejected — the API handler
validates presence, email and phone format but never the teamName length,
so the request succeeds with 201 and a record is persisted. -/
theorem registerHandler_short_name_cex :
    ("X" : String).length < 2 ∧
    (registerHandler [] "POST" bodyShortName rand0 0).1.status = 201 ∧
    (registerHandler [] "POST" bodyShortName rand0 0).1.success = true ∧
    (registerHandler [] "POST" bodyShortName rand0 0).2.length = 1 := by
  refine ⟨by decide, rfl, rfl, rfl⟩

/-- C8 (amended): the teamName length bounds [2, 30] are enforced only by
the browser registration form, not by the HTTP register endpoint.  A form
submission whose other validations pass but whose trimmed teamName is
shorter than 2 or longer than 30 characters is rejected with the
validation error and registers nothing; the API endpoint registers such
names (see the counterexample). -/
theorem handleSubmit_name_length (store : List Team)
    (teamName player1 player2 email phoneNumber : String)
    (rand : Fin 5 → Fin 62) (now : Nat)
    (h1 : (jsTrim teamName == "") = false) (h2 : (jsTrim player1 == "") = false)
    (h3 : (jsTrim player2 == "") = false) (h4 : (jsTrim email == "") = false)
    (h5 : (jsTrim phoneNumber == "") = false)
    (he : emailValid email = true) (hp : phoneValid (jsTrim phoneNumber) = true)
    (hlen : (jsTrim teamName).length < 2 ∨ 30 < (jsTrim teamName).length) :
    handleSubmit store teamName player1 player2 email phoneNumber rand now
      = (Except.error "Team name must be between 2 and 30 characters", store) := by
  have hcond : (decide ((jsTrim teamName).length < 2) ||
      decide ((jsTrim teamName).length > 30)) = true := by
    rcases hlen with h | h <;> simp [h]
  unfold handleSubmit handleSubmitValidate
  simp [h1, h2, h3, h4, h5, he, hp, hcond]

/-- Witness for C8 (amended): the form rejects the 1-character teamName
`X` with the length validation error and registers nothing. -/
theorem handleSubmit_name_length_w :
    handleSubmit [] "X" "P1" "P2" "a@b.com" "1234567890" rand0 0
      = (Except.error "Team name must be between 2 and 30 characters", []) :=
  handleSubmit_name_length [] "X" "P1" "P2" "a@b.com" "1234567890" rand0 0
    (by decide) (by decide) (by decide) (by decide) (by decide) (by decide)
    (by decide) (Or.inl (by decide))

/-- C9: every POST /api/update-score request whose scoreIncrement lies
outside [-1000000, 1000000] is rejected with HTTP 400, success=false and
the range-validation error, and the store — hence every score in it — is
returned unchanged. -/
theorem updateScoreHandler_range (store : List Team) (u : String) (inc : Int)
    (hu : (u == "") = false) (hr : inc < -1000000 ∨ 1000000 < inc) :
    updateScoreHandler store "POST" { uid := some u, scoreIncrement := some inc }
      = ({ status := 400, success := false,
           error := some "Score increment must be between -1,000,000 and 1,000,000" },
         store) := by
  have hcond : (decide (inc < -1000000) || decide (inc > 1000000)) = true := by
    rcases hr with h | h <;> simp [h]
  unfold updateScoreHandler falsyOpt
  simp [hu, hcond]

/-- Witness for C9: the out-of-range increment 2,000,000 on a one-record
store gets the 400 validation response and the record keeps its score. -/
theorem updateScoreHandler_range_w :
    updateScoreHandler [teamW] "POST" { uid := some "qK234", scoreIncrement := some 2000000 }
      = ({ status := 400, success := false,
           error := some "Score increment must be between -1,000,000 and 1,000,000" },
         [teamW]) :=
  updateScoreHandler_range [teamW] "qK234" 2000000 (by decide) (Or.inr (by decide))
